import Mathlib

/-!
Verification of the lighthouse text-adventure engine.

The definitions below are a shallow embedding of the repository's two
source files:

* `src/frontend/game.js` — the game state, the static room graph, the
  engine commands (`move`, `take`, `examine`, `useItem`,
  `handleEngineCommand`, `checkGameCompletion`) and the part of
  `handleUserInput` that mutates the game state when an interpret
  response arrives.
* `src/backend/server.js` (first revision, the one the claims cite) —
  the JSON-recovery pipeline of `callMistralChat` (fence stripping,
  brace extraction, parse fallback, field defaults) and the
  `interpretHandler` request validation.

JavaScript strings are modelled as Lean `String`; the ASCII-only
`Char.toLower` coincides with JavaScript `toLowerCase` on every string
these theorems evaluate.  The mutable global `gameState` and the
mutable `items` arrays of the global `rooms` table are gathered into
one explicit `GameState` record that every operation threads through.
`JSON.parse` is an opaque platform primitive; it is modelled as an
explicit function parameter `jp : String -> Option MistralParsed`.
-/

namespace TugrulLighthouse

/-- The six puzzle milestone booleans of `gameState.puzzleProgress`. -/
structure PuzzleProgress where
  foundLantern : Bool
  litLantern : Bool
  foundKey : Bool
  unlockedDoor : Bool
  reachedTop : Bool
  litBeacon : Bool
deriving DecidableEq, Repr

/-- `gameState.flags`: the three named booleans plus the dynamically
added `visited_<roomId>` keys, modelled as the list of room ids whose
visited marker has been set. -/
structure Flags where
  lighthouseDoorUnlocked : Bool
  lanternLit : Bool
  firstLook : Bool
  visited : List String
deriving DecidableEq, Repr

/-- The mutable `items` arrays of the five entries of the global
`rooms` table (`game.js` lines 30-89).  Everything else in `rooms` is
immutable data. -/
structure RoomItems where
  pier : List String
  beach : List String
  lighthouseExterior : List String
  lighthouseInterior : List String
  lighthouseTop : List String
deriving DecidableEq, Repr

/-- The whole mutable world: the `gameState` object together with the
mutable room item arrays. -/
structure GameState where
  currentRoomId : String
  inventory : List String
  flags : Flags
  puzzleProgress : PuzzleProgress
  gameComplete : Bool
  password : Option String
  language : String
  roomItems : RoomItems
deriving DecidableEq, Repr

/-- The five room identifiers of the static `rooms` table. -/
def roomIds : List String :=
  ["pier", "beach", "lighthouseExterior", "lighthouseInterior", "lighthouseTop"]

/-- `rooms[id]` is defined exactly for the five static rooms. -/
def roomExists (id : String) : Bool := roomIds.contains id

/-- The static `exits` tables of the five rooms. -/
def roomExit (roomId dir : String) : Option String :=
  if roomId == "pier" then
    (if dir == "north" then some "beach" else none)
  else if roomId == "beach" then
    (if dir == "south" then some "pier"
     else if dir == "north" then some "lighthouseExterior" else none)
  else if roomId == "lighthouseExterior" then
    (if dir == "south" then some "beach"
     else if dir == "inside" then some "lighthouseInterior" else none)
  else if roomId == "lighthouseInterior" then
    (if dir == "down" then some "lighthouseExterior"
     else if dir == "up" then some "lighthouseTop" else none)
  else if roomId == "lighthouseTop" then
    (if dir == "down" then some "lighthouseInterior" else none)
  else none

/-- Read `rooms[id].items`; `none` when the room id is unknown. -/
def getRoomItems (ri : RoomItems) (id : String) : Option (List String) :=
  if id == "pier" then some ri.pier
  else if id == "beach" then some ri.beach
  else if id == "lighthouseExterior" then some ri.lighthouseExterior
  else if id == "lighthouseInterior" then some ri.lighthouseInterior
  else if id == "lighthouseTop" then some ri.lighthouseTop
  else none

/-- Overwrite `rooms[id].items`; identity when the room id is unknown. -/
def setRoomItems (ri : RoomItems) (id : String) (l : List String) : RoomItems :=
  if id == "pier" then { ri with pier := l }
  else if id == "beach" then { ri with beach := l }
  else if id == "lighthouseExterior" then { ri with lighthouseExterior := l }
  else if id == "lighthouseInterior" then { ri with lighthouseInterior := l }
  else if id == "lighthouseTop" then { ri with lighthouseTop := l }
  else ri

/-- The initial placement of the two items (`game.js` lines 30-89):
the lantern on the beach, the small key at the lighthouse entrance. -/
def initialRoomItems : RoomItems :=
  { pier := []
    beach := ["lantern"]
    lighthouseExterior := ["smallKey"]
    lighthouseInterior := []
    lighthouseTop := [] }

/-- The `gameState` literal of `game.js` lines 9-28. -/
def initialGameState : GameState :=
  { currentRoomId := "pier"
    inventory := []
    flags :=
      { lighthouseDoorUnlocked := false
        lanternLit := false
        firstLook := true
        visited := [] }
    puzzleProgress :=
      { foundLantern := false
        litLantern := false
        foundKey := false
        unlockedDoor := false
        reachedTop := false
        litBeacon := false }
    gameComplete := false
    password := none
    language := "en"
    roomItems := initialRoomItems }

/-- ASCII whitespace, the characters JavaScript trims and splits on in
the strings that occur here. -/
def wsChar (c : Char) : Bool := c == ' ' || c == '\t' || c == '\n' || c == '\r'

/-- Model of `String.prototype.trim`. -/
def sTrim (s : String) : String :=
  String.mk (((s.toList.dropWhile wsChar).reverse.dropWhile wsChar).reverse)

/-- Model of `String.prototype.toLowerCase` (ASCII; coincides with
JavaScript on every string evaluated in this development). -/
def sToLower (s : String) : String := String.mk (s.toList.map Char.toLower)

/-- Split on runs of whitespace, as `split(/\s+/)` does on a string
with no leading whitespace. -/
def splitWsAux : List Char → List Char → List (List Char)
  | [], acc => if acc.isEmpty then [] else [acc.reverse]
  | c :: rest, acc =>
    if wsChar c then
      if acc.isEmpty then splitWsAux rest [] else acc.reverse :: splitWsAux rest []
    else splitWsAux rest (c :: acc)

/-- The word list of a trimmed string, as `split(/\s+/)` yields. -/
def sWords (s : String) : List String := (splitWsAux s.toList []).map String.mk

/-- `normalizeItemName` (`game.js` lines 379-389): the fixed synonym
table mapping free text to the two canonical item identifiers. -/
def normalizeItemName (word : String) : Option String :=
  let w := sTrim (sToLower word)
  if w == "" then none
  else if w == "key" || w == "smallkey" || w == "small key" then some "smallKey"
  else if w == "lantern" then some "lantern"
  else if w == "anahtar" || w == "küçük anahtar" || w == "küçükanahtar" then some "smallKey"
  else if w == "fener" || w == "lamba" then some "lantern"
  else none

/-- `setLocation` (`game.js` lines 184-202): guard on the room
existing, set `currentRoomId`, and set the `visited_<roomId>` flag
(the remaining statements only touch the DOM). -/
def setLocation (st : GameState) (roomId : String) : GameState :=
  if roomExists roomId then
    { st with
      currentRoomId := roomId
      flags :=
        { st.flags with
          visited :=
            if st.flags.visited.contains roomId then st.flags.visited
            else st.flags.visited ++ [roomId] } }
  else st

/-- `move` (`game.js` lines 215-244): normalize the `in` alias, look
up the exit, refuse the locked interior, set `reachedTop` when the
destination is the top, then relocate. -/
def move (st : GameState) (direction : String) : Bool × GameState :=
  match roomExit st.currentRoomId
      (if direction == "inside" || direction == "in" then "inside" else direction) with
  | none => (false, st)
  | some nextId =>
    if nextId == "lighthouseInterior" && !st.flags.lighthouseDoorUnlocked then
      (false, st)
    else
      (true,
       setLocation
         (if nextId == "lighthouseTop" then
           { st with puzzleProgress := { st.puzzleProgress with reachedTop := true } }
          else st)
         nextId)

/-- `take` (`game.js` lines 246-276).  The two trailing conditional
statements setting `foundLantern` / `foundKey` are written as
conditional field updates of the same record. -/
def take (st : GameState) (itemWord : String) : Bool × GameState :=
  match getRoomItems st.roomItems st.currentRoomId with
  | none => (false, st)
  | some items =>
    match normalizeItemName itemWord with
    | none => (false, st)
    | some canonicalItem =>
      if items.contains canonicalItem then
        (true,
         { st with
           roomItems := setRoomItems st.roomItems st.currentRoomId (items.erase canonicalItem)
           inventory := st.inventory ++ [canonicalItem]
           puzzleProgress :=
             { st.puzzleProgress with
               foundLantern :=
                 if canonicalItem == "lantern" then true else st.puzzleProgress.foundLantern
               foundKey :=
                 if canonicalItem == "smallKey" then true else st.puzzleProgress.foundKey } })
      else (false, st)

/-- `examine` (`game.js` lines 284-302): pure success test, no
mutation. -/
def examine (st : GameState) (itemWord : String) : Bool :=
  match normalizeItemName itemWord with
  | none => false
  | some c =>
    st.inventory.contains c || ((getRoomItems st.roomItems st.currentRoomId).getD []).contains c

/-- The conjunction of the six flags computed as `allComplete` inside
`checkGameCompletion` (`game.js` lines 365-371). -/
def allPuzzlesComplete (p : PuzzleProgress) : Bool :=
  p.foundLantern && p.litLantern && p.foundKey && p.unlockedDoor && p.reachedTop && p.litBeacon

/-- `checkGameCompletion` (`game.js` lines 363-377): it computes
`allComplete` and tests `allComplete && !gameState.gameComplete`, but
the body of that conditional contains only comments, so the game state
is returned unchanged — in particular `gameComplete` is not assigned. -/
def checkGameCompletion (st : GameState) : GameState := st

/-- `useItem` (`game.js` lines 304-361). -/
def useItem (st : GameState) (itemWord : String) : Bool × GameState :=
  match normalizeItemName itemWord with
  | none => (false, st)
  | some canonicalItem =>
    if !(st.inventory.contains canonicalItem) then (false, st)
    else
      if canonicalItem == "smallKey" && st.currentRoomId == "lighthouseExterior" then
        if st.flags.lighthouseDoorUnlocked then (true, st)
        else
          (true,
           { st with
             flags := { st.flags with lighthouseDoorUnlocked := true }
             puzzleProgress := { st.puzzleProgress with unlockedDoor := true } })
      else if canonicalItem == "lantern" then
        if st.currentRoomId == "lighthouseTop" then
          if st.puzzleProgress.litBeacon then (true, st)
          else if st.flags.lanternLit then
            (true,
             checkGameCompletion
               { st with puzzleProgress := { st.puzzleProgress with litBeacon := true } })
          else (false, st)
        else
          if st.flags.lanternLit then (true, st)
          else
            (true,
             { st with
               flags := { st.flags with lanternLit := true }
               puzzleProgress := { st.puzzleProgress with litLantern := true } })
      else (true, st)

/-- The `verb` of an engine command string: first whitespace-delimited
word of the trimmed, lowercased input (`game.js` lines 412-417). -/
def cmdVerb (s : String) : String := (sWords (sToLower (sTrim s))).headD ""

/-- The `arg` of an engine command string: the remaining words joined
by single spaces (`game.js` line 418). -/
def cmdArg (s : String) : String := String.intercalate " " ((sWords (sToLower (sTrim s))).drop 1)

/-- `handleEngineCommand` (`game.js` lines 411-482): trim, lowercase,
split into verb and argument, and dispatch. -/
def handleEngineCommand (st : GameState) (engineCommand : String) : Bool × GameState :=
  if sTrim engineCommand == "" then (true, st)
  else
    if cmdVerb engineCommand == "look" || cmdVerb engineCommand == "l" then (true, st)
    else if cmdVerb engineCommand == "help" then (true, st)
    else if cmdVerb engineCommand == "go" then
      if cmdArg engineCommand == "" then (false, st) else move st (cmdArg engineCommand)
    else if cmdVerb engineCommand == "north" || cmdVerb engineCommand == "south"
        || cmdVerb engineCommand == "east" || cmdVerb engineCommand == "west"
        || cmdVerb engineCommand == "up" || cmdVerb engineCommand == "down"
        || cmdVerb engineCommand == "inside" then
      move st (cmdVerb engineCommand)
    else if cmdVerb engineCommand == "take" || cmdVerb engineCommand == "get" then
      if cmdArg engineCommand == "" then (false, st) else take st (cmdArg engineCommand)
    else if cmdVerb engineCommand == "inventory" || cmdVerb engineCommand == "inv"
        || cmdVerb engineCommand == "i" then (true, st)
    else if cmdVerb engineCommand == "examine" || cmdVerb engineCommand == "x" then
      if cmdArg engineCommand == "" then (false, st) else (examine st (cmdArg engineCommand), st)
    else if cmdVerb engineCommand == "use" then
      if cmdArg engineCommand == "" then (false, st) else useItem st (cmdArg engineCommand)
    else (true, st)

/-- Run a sequence of engine commands through the Executor. -/
def runEngine (st : GameState) : List String → GameState
  | [] => st
  | c :: rest => runEngine (handleEngineCommand st c).2 rest

/-!
Backend model (`src/backend/server.js`, first revision, lines 27-265).

The Mistral reply content is an arbitrary string.  `JSON.parse` is an
opaque platform primitive, modelled as an explicit function parameter
`jp : String -> Option MistralParsed`: `jp s = none` models
`JSON.parse(s)` throwing, `jp s = some p` models it succeeding with an
object decoded to `p`.
-/

/-- A possibly partial `puzzleProgress` object from an interpret
response; `none` fields are absent keys.  The object spread
`\x7b ...old, ...patch \x7d` in `handleUserInput` keeps old values only for
absent keys. -/
structure PuzzleProgressPatch where
  foundLantern : Option Bool
  litLantern : Option Bool
  foundKey : Option Bool
  unlockedDoor : Option Bool
  reachedTop : Option Bool
  litBeacon : Option Bool
deriving DecidableEq, Repr

/-- The object `callMistralChat` returns: every field optional, filled
in by the defaults block of `server.js` lines 182-203. -/
structure MistralParsed where
  command : Option String
  narration : Option String
  language : Option String
  puzzleProgress : Option PuzzleProgressPatch
  gameComplete : Option Bool
  password : Option String
deriving DecidableEq, Repr

/-- The backtick character, written by code point to keep source text
plain. -/
def tick : Char := Char.ofNat 96

/-- Opening and closing brace characters, written by code point. -/
def lbrace : Char := Char.ofNat 123

def rbrace : Char := Char.ofNat 125

/-- Split a character list at each non-overlapping occurrence of three
consecutive backticks, scanning left to right — the occurrence
structure that both the fence regex and the fence-removing `replace`
calls of `server.js` traverse. -/
def splitTicks : List Char → List (List Char)
  | t1 :: t2 :: t3 :: rest =>
    if t1 == tick && t2 == tick && t3 == tick then
      [] :: splitTicks rest
    else
      match splitTicks (t2 :: t3 :: rest) with
      | [] => [[t1]]
      | h :: t => (t1 :: h) :: t
  | cs => [cs]

/-- Does the string contain a three-backtick fence marker
(`includes` test of `server.js` lines 134 and 162)? -/
def containsTicks (s : String) : Bool :=
  match splitTicks s.toList with
  | _ :: _ :: _ => true
  | _ => false

/-- Drop a literal lowercase `json` tag, as the non-case-insensitive
fence regex consumes right after the opening fence. -/
def dropJsonTag : List Char → List Char
  | j :: s :: o :: n :: rest =>
    if j == 'j' && s == 's' && o == 'o' && n == 'n' then rest
    else j :: s :: o :: n :: rest
  | cs => cs

/-- Drop a `json` tag case-insensitively, as the `gi`-flagged
fence-removing regex of `server.js` line 163 consumes. -/
def dropJsonTagCI : List Char → List Char
  | a :: b :: c :: d :: rest =>
    if a.toLower == 'j' && b.toLower == 's' && c.toLower == 'o' && d.toLower == 'n' then rest
    else a :: b :: c :: d :: rest
  | cs => cs

/-- The capture of the first match of the fenced-block regex of
`server.js` line 135: the text between the first fence pair, with a
literal `json` tag and leading whitespace removed.  `none` when there
is no fence pair or the capture is empty (the code tests the capture
for truthiness before using it). -/
def fenceCapture (s : String) : Option String :=
  match splitTicks s.toList with
  | _ :: inner :: _ :: _ =>
    let cap := (dropJsonTag inner).dropWhile wsChar
    if cap.isEmpty then none else some (String.mk cap)
  | _ => none

/-- The match of the brace regex of `server.js` line 144: the
substring from the first opening brace to the last closing brace, when
the latter comes after the former. -/
def braceExtract (s : String) : Option String :=
  let cs := s.toList
  match cs.findIdx? (fun c => c == lbrace) with
  | none => none
  | some i =>
    match cs.reverse.findIdx? (fun c => c == rbrace) with
    | none => none
    | some rj =>
      let j := cs.length - 1 - rj
      if i < j then some (String.mk ((cs.drop i).take (j - i + 1))) else none

/-- Does the string start with a three-backtick fence
(`startsWith` test of `server.js` line 142)? -/
def startsTicks (s : String) : Bool :=
  match s.toList with
  | a :: b :: c :: _ => a == tick && b == tick && c == tick
  | _ => false

/-- The two chained `replace` calls of `server.js` line 163: remove
every fence marker together with a case-insensitive `json` tag
immediately following it. -/
def stripFenceMarks (s : String) : String :=
  match splitTicks s.toList with
  | [] => s
  | h :: t => String.mk (h ++ (t.map dropJsonTagCI).foldr (fun a acc => a ++ acc) [])

/-- The candidate-extraction steps of `server.js` lines 129-151:
fenced-block capture, then brace extraction when the fence step left
the candidate unchanged or fenced, then a final trim. -/
def extractCandidate (trimmed : String) : String :=
  let c1 :=
    match fenceCapture trimmed with
    | some cap => sTrim cap
    | none => trimmed
  let c2 :=
    if c1 == trimmed || startsTicks c1 then
      match braceExtract trimmed with
      | some m => sTrim m
      | none => c1
    else c1
  sTrim c2

/-- The object built in the `catch` arm of `server.js` lines 166-179:
default command `look`, and the raw trimmed reply as narration unless
it is empty. -/
def fallbackParsed (trimmed : String) : MistralParsed :=
  { command := some "look"
    narration :=
      some (if trimmed == "" then "You pause for a moment, unsure of your next move." else trimmed)
    language := none
    puzzleProgress := none
    gameComplete := none
    password := none }

/-- The parse attempts of `server.js` lines 153-180: parse the
candidate; on failure retry once on the fence-stripped candidate when
it still contains a fence, else fall back. -/
def parseWithFallback (jp : String → Option MistralParsed) (trimmed : String) : MistralParsed :=
  let candidate := extractCandidate trimmed
  match jp candidate with
  | some parsed => parsed
  | none =>
    if containsTicks candidate then
      match jp (sTrim (stripFenceMarks candidate)) with
      | some parsed => parsed
      | none => fallbackParsed trimmed
    else fallbackParsed trimmed

/-- Replace an absent or empty string by a default, as the truthiness
tests of `server.js` lines 182-190 do. -/
def orDefaultStr (o : Option String) (d : String) : String :=
  match o with
  | none => d
  | some s => if s == "" then d else s

/-- The all-false `puzzleProgress` default object of `server.js`
lines 191-200. -/
def defaultPatchAllFalse : PuzzleProgressPatch :=
  { foundLantern := some false
    litLantern := some false
    foundKey := some false
    unlockedDoor := some false
    reachedTop := some false
    litBeacon := some false }

/-- The field-default block of `server.js` lines 182-203. -/
def applyDefaults (p : MistralParsed) : MistralParsed :=
  { command := some (orDefaultStr p.command "look")
    narration := some (orDefaultStr p.narration "You take a moment to look around.")
    language := some (orDefaultStr p.language "en")
    puzzleProgress := some (p.puzzleProgress.getD defaultPatchAllFalse)
    gameComplete := some (p.gameComplete.getD false)
    password := p.password }

/-- The whole content-processing tail of `callMistralChat`
(`server.js` lines 121-205): trim the possibly absent reply content,
extract and parse a candidate with fallback, then apply the field
defaults.  The function is total: every parse failure is handled, so
no exception escapes this step. -/
def callMistralParse (jp : String → Option MistralParsed) (content : Option String) : MistralParsed :=
  let trimmed := sTrim (content.getD "")
  applyDefaults (parseWithFallback jp trimmed)

/-- The `input` field of an interpret request body as JavaScript sees
it: absent, present but not a string, or a string. -/
inductive JsInput where
  | missing
  | nonString
  | str (s : String)
deriving DecidableEq, Repr

/-- The validation of `server.js` line 214: `input` passes only when
it is a non-empty string (`!input` rejects the empty string, and the
`typeof` test rejects every non-string). -/
def inputAccepted : JsInput → Bool
  | .str s => !(s == "")
  | _ => false

/-- Truthiness of the `MISTRAL_API_KEY` environment value
(`server.js` line 220): present and non-empty. -/
def apiKeyPresent : Option String → Bool
  | none => false
  | some s => !(s == "")

/-- The observable outcome of one `interpretHandler` call: the HTTP
status, the JSON body on success, and whether the upstream Translation
Service was invoked. -/
structure HandlerResult where
  status : Nat
  body : Option MistralParsed
  calledUpstream : Bool
deriving DecidableEq, Repr

/-- `interpretHandler` (`server.js` lines 211-254).  `upstream` is the
outcome of `await callMistralChat(...)`: a `MistralParsed` value on
success (produced by `callMistralParse` on the reply content), or an
error when the upstream call throws; a thrown error is caught and
answered with status 500. -/
def interpretHandler (apiKey : Option String) (upstream : Except Unit MistralParsed)
    (input : JsInput) : HandlerResult :=
  if !(inputAccepted input) then
    { status := 400, body := none, calledUpstream := false }
  else if !(apiKeyPresent apiKey) then
    { status := 500, body := none, calledUpstream := false }
  else
    match upstream with
    | .ok parsed => { status := 200, body := some parsed, calledUpstream := true }
    | .error _ => { status := 500, body := none, calledUpstream := true }

/-- `response.ok` of the browser fetch: status in the 2xx range. -/
def okOf (r : HandlerResult) : Bool := decide (200 ≤ r.status ∧ r.status < 300)

/-- The object spread `\x7b ...gameState.puzzleProgress, ...data.puzzleProgress \x7d`
of `game.js` line 524: fields present in the response patch overwrite
the client's values. -/
def mergePatch (p : PuzzleProgress) (patch : PuzzleProgressPatch) : PuzzleProgress :=
  { foundLantern := patch.foundLantern.getD p.foundLantern
    litLantern := patch.litLantern.getD p.litLantern
    foundKey := patch.foundKey.getD p.foundKey
    unlockedDoor := patch.unlockedDoor.getD p.unlockedDoor
    reachedTop := patch.reachedTop.getD p.reachedTop
    litBeacon := patch.litBeacon.getD p.litBeacon }

/-- The `if (data.puzzleProgress)` block of `game.js` lines 522-525:
merge the response patch over the client's progress. -/
def applyProgressMerge (st : GameState) (data : MistralParsed) : GameState :=
  match data.puzzleProgress with
  | some patch => { st with puzzleProgress := mergePatch st.puzzleProgress patch }
  | none => st

/-- The `if (data.gameComplete && !gameState.gameComplete)` block of
`game.js` lines 527-534: set `gameComplete`, and `password` when the
response carries a truthy one. -/
def applyCompletion (st : GameState) (data : MistralParsed) : GameState :=
  if data.gameComplete.getD false && !st.gameComplete then
    match data.password with
    | some pw =>
      if pw == "" then { st with gameComplete := true }
      else { st with gameComplete := true, password := some pw }
    | none => { st with gameComplete := true }
  else st

/-- The engine-command execution of `game.js` lines 540-544: run
`data.command` through the Executor when non-empty. -/
def applyEngineCommand (st : GameState) (data : MistralParsed) : GameState :=
  if sTrim (data.command.getD "") == "" then st
  else (handleEngineCommand st (sTrim (data.command.getD ""))).2

/-- The state-mutating part of `handleUserInput` (`game.js` lines
506-572) applied to one interpret response: nothing on a non-2xx
response; otherwise merge `data.puzzleProgress`, set `gameComplete`
and `password` when `data.gameComplete` is truthy and the game was not
already complete, then execute the engine command if non-empty.  (The
follow-up explain-failure request only appends narration and never
mutates the state.) -/
def handleUserInputApply (st : GameState) (ok : Bool) (data : MistralParsed) : GameState :=
  if !ok then st
  else applyEngineCommand (applyCompletion (applyProgressMerge st data) data) data

/-- Run a session: a list of (response.ok, data) round trips applied
in order. -/
def runSession (st : GameState) : List (Bool × MistralParsed) → GameState
  | [] => st
  | (ok, d) :: rest => runSession (handleUserInputApply st ok d) rest

/-- The `gameComplete` value after each round trip of a session. -/
def gcTrace (st : GameState) : List (Bool × MistralParsed) → List Bool
  | [] => []
  | (ok, d) :: rest =>
    (handleUserInputApply st ok d).gameComplete :: gcTrace (handleUserInputApply st ok d) rest

/-- Count the false-to-true transitions along a boolean trace starting
from a given previous value. -/
def riseCount : Bool → List Bool → Nat
  | _, [] => 0
  | prev, b :: rest => (if prev == false && b == true then 1 else 0) + riseCount b rest

/-!
Helper notions for the theorems: boolean implication, pointwise
monotonicity of the six puzzle flags, and the number of occurrences of
an item identifier across all item locations of the world.
-/

/-- Boolean implication. -/
def impB (a b : Bool) : Bool := !a || b

/-- Pointwise monotonicity: every flag true in `p` is true in `q`. -/
def progressLeB (p q : PuzzleProgress) : Bool :=
  impB p.foundLantern q.foundLantern && impB p.litLantern q.litLantern
    && impB p.foundKey q.foundKey && impB p.unlockedDoor q.unlockedDoor
    && impB p.reachedTop q.reachedTop && impB p.litBeacon q.litBeacon

/-- Total number of occurrences of an item identifier across the five
room item sets and the inventory. -/
def totalCount (st : GameState) (item : String) : Nat :=
  st.roomItems.pier.count item + st.roomItems.beach.count item
    + st.roomItems.lighthouseExterior.count item
    + st.roomItems.lighthouseInterior.count item
    + st.roomItems.lighthouseTop.count item
    + st.inventory.count item

theorem impB_trans {a b c : Bool} (h1 : impB a b = true) (h2 : impB b c = true) :
    impB a c = true := by
  revert h1 h2; revert a b c; decide

theorem progressLeB_refl (p : PuzzleProgress) : progressLeB p p = true := by
  obtain ⟨a, b, c, d, e, f⟩ := p
  revert a b c d e f; decide

theorem progressLeB_trans {p q r : PuzzleProgress}
    (h1 : progressLeB p q = true) (h2 : progressLeB q r = true) : progressLeB p r = true := by
  simp only [progressLeB, Bool.and_eq_true] at h1 h2 ⊢
  obtain ⟨⟨⟨⟨⟨a1, a2⟩, a3⟩, a4⟩, a5⟩, a6⟩ := h1
  obtain ⟨⟨⟨⟨⟨b1, b2⟩, b3⟩, b4⟩, b5⟩, b6⟩ := h2
  exact ⟨⟨⟨⟨⟨impB_trans a1 b1, impB_trans a2 b2⟩, impB_trans a3 b3⟩, impB_trans a4 b4⟩,
    impB_trans a5 b5⟩, impB_trans a6 b6⟩

theorem progressLeB_set_reachedTop (p : PuzzleProgress) :
    progressLeB p { p with reachedTop := true } = true := by
  obtain ⟨a, b, c, d, e, f⟩ := p
  revert a b c d e f; decide

theorem progressLeB_set_unlockedDoor (p : PuzzleProgress) :
    progressLeB p { p with unlockedDoor := true } = true := by
  obtain ⟨a, b, c, d, e, f⟩ := p
  revert a b c d e f; decide

theorem progressLeB_set_litLantern (p : PuzzleProgress) :
    progressLeB p { p with litLantern := true } = true := by
  obtain ⟨a, b, c, d, e, f⟩ := p
  revert a b c d e f; decide

theorem progressLeB_set_litBeacon (p : PuzzleProgress) :
    progressLeB p { p with litBeacon := true } = true := by
  obtain ⟨a, b, c, d, e, f⟩ := p
  revert a b c d e f; decide

theorem progressLeB_take_update (p : PuzzleProgress) (b1 b2 : Bool) :
    progressLeB p
      { p with
        foundLantern := if b1 then true else p.foundLantern
        foundKey := if b2 then true else p.foundKey } = true := by
  obtain ⟨a, b, c, d, e, f⟩ := p
  revert a b c d e f b1 b2; decide

theorem totalCount_congr {st' st : GameState} (hri : st'.roomItems = st.roomItems)
    (hinv : st'.inventory = st.inventory) (x : String) : totalCount st' x = totalCount st x := by
  simp [totalCount, hri, hinv]

theorem setLocation_effects (st : GameState) (r : String) :
    (setLocation st r).gameComplete = st.gameComplete
    ∧ (setLocation st r).inventory = st.inventory
    ∧ (setLocation st r).roomItems = st.roomItems
    ∧ (setLocation st r).puzzleProgress = st.puzzleProgress
    ∧ (setLocation st r).password = st.password := by
  unfold setLocation
  split <;> simp

theorem move_effects (st : GameState) (d : String) :
    (move st d).2.gameComplete = st.gameComplete
    ∧ (move st d).2.inventory = st.inventory
    ∧ (move st d).2.roomItems = st.roomItems
    ∧ (move st d).2.password = st.password
    ∧ progressLeB st.puzzleProgress (move st d).2.puzzleProgress = true := by
  unfold move
  split
  · exact ⟨rfl, rfl, rfl, rfl, progressLeB_refl _⟩
  · rename_i nextId _
    split
    · exact ⟨rfl, rfl, rfl, rfl, progressLeB_refl _⟩
    · split
      · obtain ⟨g, i, r, pp, pw⟩ :=
          setLocation_effects
            { st with puzzleProgress := { st.puzzleProgress with reachedTop := true } } nextId
        exact ⟨by simp [g], by simp [i], by simp [r], by simp [pw],
          by simp [pp, progressLeB_set_reachedTop]⟩
      · obtain ⟨g, i, r, pp, pw⟩ := setLocation_effects st nextId
        exact ⟨by simp [g], by simp [i], by simp [r], by simp [pw],
          by simp [pp, progressLeB_refl]⟩

theorem count_move_item (l inv : List String) (c : String) (hc : c ∈ l) (x : String) :
    (l.erase c).count x + (inv ++ [c]).count x = l.count x + inv.count x := by
  rw [List.count_append]
  by_cases hxc : x = c
  · subst hxc
    rw [List.count_erase_self]
    have h1 : 0 < l.count x := List.count_pos_iff.mpr hc
    have h2 : List.count x [x] = 1 := by simp
    omega
  · rw [List.count_erase_of_ne hxc]
    have h2 : List.count x [c] = 0 := by
      simp [List.count_singleton, Ne.symm hxc]
    omega

theorem take_effects (st : GameState) (w : String) :
    (take st w).2.gameComplete = st.gameComplete
    ∧ (take st w).2.password = st.password
    ∧ progressLeB st.puzzleProgress (take st w).2.puzzleProgress = true
    ∧ ∀ x, totalCount (take st w).2 x = totalCount st x := by
  unfold take
  cases hg : getRoomItems st.roomItems st.currentRoomId with
  | none => exact ⟨rfl, rfl, progressLeB_refl _, fun _ => rfl⟩
  | some items =>
    cases hn : normalizeItemName w with
    | none => exact ⟨rfl, rfl, progressLeB_refl _, fun _ => rfl⟩
    | some c =>
      dsimp only
      by_cases hmem : items.contains c = true
      · rw [if_pos hmem]
        have hc : c ∈ items := by simpa using hmem
        refine ⟨rfl, rfl, ?_, ?_⟩
        · exact progressLeB_take_update st.puzzleProgress (c == "lantern") (c == "smallKey")
        · intro x
          have key := count_move_item items st.inventory c hc x
          unfold getRoomItems at hg
          split_ifs at hg <;>
            (injection hg with hgi
             subst hgi
             simp_all [totalCount, setRoomItems]
             all_goals omega)
      · rw [if_neg hmem]
        exact ⟨rfl, rfl, progressLeB_refl _, fun _ => rfl⟩

theorem useItem_cases (st : GameState) (w : String) :
    (useItem st w).2 = st
    ∨ (useItem st w).2 =
        { st with
          flags := { st.flags with lighthouseDoorUnlocked := true }
          puzzleProgress := { st.puzzleProgress with unlockedDoor := true } }
    ∨ (useItem st w).2 =
        { st with puzzleProgress := { st.puzzleProgress with litBeacon := true } }
    ∨ (useItem st w).2 =
        { st with
          flags := { st.flags with lanternLit := true }
          puzzleProgress := { st.puzzleProgress with litLantern := true } } := by
  unfold useItem checkGameCompletion
  cases hn : normalizeItemName w with
  | none => exact Or.inl rfl
  | some c =>
    dsimp only
    split_ifs <;>
      first
      | exact Or.inl rfl
      | exact Or.inr (Or.inl rfl)
      | exact Or.inr (Or.inr (Or.inl rfl))
      | exact Or.inr (Or.inr (Or.inr rfl))

theorem useItem_effects (st : GameState) (w : String) :
    (useItem st w).2.gameComplete = st.gameComplete
    ∧ (useItem st w).2.inventory = st.inventory
    ∧ (useItem st w).2.roomItems = st.roomItems
    ∧ (useItem st w).2.password = st.password
    ∧ progressLeB st.puzzleProgress (useItem st w).2.puzzleProgress = true := by
  rcases useItem_cases st w with h | h | h | h <;> rw [h]
  · exact ⟨rfl, rfl, rfl, rfl, progressLeB_refl _⟩
  · exact ⟨rfl, rfl, rfl, rfl, progressLeB_set_unlockedDoor _⟩
  · exact ⟨rfl, rfl, rfl, rfl, progressLeB_set_litBeacon _⟩
  · exact ⟨rfl, rfl, rfl, rfl, progressLeB_set_litLantern _⟩

theorem engine_cases (st : GameState) (c : String) :
    (handleEngineCommand st c).2 = st
    ∨ (∃ a, (handleEngineCommand st c).2 = (move st a).2)
    ∨ (∃ a, (handleEngineCommand st c).2 = (take st a).2)
    ∨ (∃ a, (handleEngineCommand st c).2 = (useItem st a).2) := by
  unfold handleEngineCommand
  by_cases h0 : (sTrim c == "") = true
  · rw [if_pos h0]; exact Or.inl rfl
  · rw [if_neg h0]
    by_cases h1 : (cmdVerb c == "look" || cmdVerb c == "l") = true
    · rw [if_pos h1]; exact Or.inl rfl
    · rw [if_neg h1]
      by_cases h2 : (cmdVerb c == "help") = true
      · rw [if_pos h2]; exact Or.inl rfl
      · rw [if_neg h2]
        by_cases h3 : (cmdVerb c == "go") = true
        · rw [if_pos h3]
          by_cases h3a : (cmdArg c == "") = true
          · rw [if_pos h3a]; exact Or.inl rfl
          · rw [if_neg h3a]; exact Or.inr (Or.inl ⟨cmdArg c, rfl⟩)
        · rw [if_neg h3]
          by_cases h4 : (cmdVerb c == "north" || cmdVerb c == "south" || cmdVerb c == "east"
              || cmdVerb c == "west" || cmdVerb c == "up" || cmdVerb c == "down"
              || cmdVerb c == "inside") = true
          · rw [if_pos h4]; exact Or.inr (Or.inl ⟨cmdVerb c, rfl⟩)
          · rw [if_neg h4]
            by_cases h5 : (cmdVerb c == "take" || cmdVerb c == "get") = true
            · rw [if_pos h5]
              by_cases h5a : (cmdArg c == "") = true
              · rw [if_pos h5a]; exact Or.inl rfl
              · rw [if_neg h5a]; exact Or.inr (Or.inr (Or.inl ⟨cmdArg c, rfl⟩))
            · rw [if_neg h5]
              by_cases h6 : (cmdVerb c == "inventory" || cmdVerb c == "inv"
                  || cmdVerb c == "i") = true
              · rw [if_pos h6]; exact Or.inl rfl
              · rw [if_neg h6]
                by_cases h7 : (cmdVerb c == "examine" || cmdVerb c == "x") = true
                · rw [if_pos h7]
                  by_cases h7a : (cmdArg c == "") = true
                  · rw [if_pos h7a]; exact Or.inl rfl
                  · rw [if_neg h7a]; exact Or.inl rfl
                · rw [if_neg h7]
                  by_cases h8 : (cmdVerb c == "use") = true
                  · rw [if_pos h8]
                    by_cases h8a : (cmdArg c == "") = true
                    · rw [if_pos h8a]; exact Or.inl rfl
                    · rw [if_neg h8a]; exact Or.inr (Or.inr (Or.inr ⟨cmdArg c, rfl⟩))
                  · rw [if_neg h8]; exact Or.inl rfl

theorem engine_effects (st : GameState) (c : String) :
    (handleEngineCommand st c).2.gameComplete = st.gameComplete
    ∧ (handleEngineCommand st c).2.password = st.password
    ∧ progressLeB st.puzzleProgress (handleEngineCommand st c).2.puzzleProgress = true
    ∧ ∀ x, totalCount (handleEngineCommand st c).2 x = totalCount st x := by
  rcases engine_cases st c with h | ⟨a, h⟩ | ⟨a, h⟩ | ⟨a, h⟩ <;> rw [h]
  · exact ⟨rfl, rfl, progressLeB_refl _, fun _ => rfl⟩
  · obtain ⟨g, i, r, pw, pp⟩ := move_effects st a
    exact ⟨g, pw, pp, fun x => totalCount_congr r i x⟩
  · exact take_effects st a
  · obtain ⟨g, i, r, pw, pp⟩ := useItem_effects st a
    exact ⟨g, pw, pp, fun x => totalCount_congr r i x⟩

theorem merge_effects (st : GameState) (d : MistralParsed) :
    (applyProgressMerge st d).gameComplete = st.gameComplete
    ∧ (applyProgressMerge st d).password = st.password
    ∧ (applyProgressMerge st d).inventory = st.inventory
    ∧ (applyProgressMerge st d).roomItems = st.roomItems
    ∧ (applyProgressMerge st d).flags = st.flags := by
  cases hd : d.puzzleProgress <;> simp [applyProgressMerge, hd]

theorem completion_gameComplete (st : GameState) (d : MistralParsed) :
    (applyCompletion st d).gameComplete = (st.gameComplete || d.gameComplete.getD false) := by
  unfold applyCompletion
  by_cases hc : (d.gameComplete.getD false && !st.gameComplete) = true
  · rw [if_pos hc]
    have h1 : d.gameComplete.getD false = true := ((Bool.and_eq_true _ _).mp hc).1
    have h2 : st.gameComplete = false := by
      simpa using ((Bool.and_eq_true _ _).mp hc).2
    rw [h1, h2]
    cases d.password with
    | none => simp
    | some pw => dsimp only; split_ifs <;> simp
  · rw [if_neg hc]
    cases hgc : st.gameComplete <;> cases hgd : d.gameComplete.getD false <;> simp_all

theorem completion_effects (st : GameState) (d : MistralParsed) :
    (applyCompletion st d).puzzleProgress = st.puzzleProgress
    ∧ (applyCompletion st d).inventory = st.inventory
    ∧ (applyCompletion st d).roomItems = st.roomItems
    ∧ (applyCompletion st d).flags = st.flags := by
  unfold applyCompletion
  by_cases hc : (d.gameComplete.getD false && !st.gameComplete) = true
  · rw [if_pos hc]
    cases d.password with
    | none => exact ⟨rfl, rfl, rfl, rfl⟩
    | some pw => dsimp only; split_ifs <;> exact ⟨rfl, rfl, rfl, rfl⟩
  · rw [if_neg hc]
    exact ⟨rfl, rfl, rfl, rfl⟩

theorem applyEngine_gameComplete (st : GameState) (d : MistralParsed) :
    (applyEngineCommand st d).gameComplete = st.gameComplete := by
  unfold applyEngineCommand
  split_ifs
  · rfl
  · exact (engine_effects st _).1

theorem applyEngine_progress (st : GameState) (d : MistralParsed) :
    progressLeB st.puzzleProgress (applyEngineCommand st d).puzzleProgress = true := by
  unfold applyEngineCommand
  split_ifs
  · exact progressLeB_refl _
  · exact (engine_effects st _).2.2.1

theorem apply_gameComplete (st : GameState) (ok : Bool) (d : MistralParsed) :
    (handleUserInputApply st ok d).gameComplete
      = (st.gameComplete || (ok && d.gameComplete.getD false)) := by
  cases ok with
  | false => simp [handleUserInputApply]
  | true =>
    unfold handleUserInputApply
    simp only [Bool.not_true, Bool.false_eq_true, if_false]
    rw [applyEngine_gameComplete, completion_gameComplete, (merge_effects st d).1]
    simp

theorem gcTrace_stays (l : List (Bool × MistralParsed)) : ∀ st : GameState,
    st.gameComplete = true → riseCount true (gcTrace st l) = 0 := by
  induction l with
  | nil => intro st _; rfl
  | cons hd tl ih =>
    intro st h
    obtain ⟨ok, d⟩ := hd
    have h1 : (handleUserInputApply st ok d).gameComplete = true := by
      rw [apply_gameComplete, h]; simp
    simp [gcTrace, riseCount, h1, ih _ h1]

theorem riseCount_le_one (l : List (Bool × MistralParsed)) : ∀ st : GameState,
    riseCount st.gameComplete (gcTrace st l) ≤ 1 := by
  induction l with
  | nil => intro st; simp [gcTrace, riseCount]
  | cons hd tl ih =>
    intro st
    obtain ⟨ok, d⟩ := hd
    simp only [gcTrace]
    cases h1 : (handleUserInputApply st ok d).gameComplete with
    | false =>
      have h2 := ih (handleUserInputApply st ok d)
      rw [h1] at h2
      simp only [riseCount, h1]
      simpa using h2
    | true =>
      have h0 := gcTrace_stays tl (handleUserInputApply st ok d) h1
      simp only [riseCount, h1, h0]
      split_ifs <;> omega

theorem roomExit_valid (roomId dir r : String) (h : roomExit roomId dir = some r) :
    roomExists r = true := by
  unfold roomExit at h
  split_ifs at h <;> (injection h with h; subst h; decide)

theorem setLocation_currentRoomId (st : GameState) (r : String) (h : roomExists r = true) :
    (setLocation st r).currentRoomId = r := by
  simp [setLocation, h]

theorem runEngine_totalCount (cmds : List String) : ∀ (st : GameState) (x : String),
    totalCount (runEngine st cmds) x = totalCount st x := by
  induction cmds with
  | nil => intro st x; rfl
  | cons c tl ih =>
    intro st x
    simp only [runEngine]
    rw [ih, (engine_effects st c).2.2.2 x]

/-!
Claim theorems.  Each theorem settles one claim of the specification
review; counterexamples are closed evaluations of the embedded code at
explicit concrete inputs.
-/

/-- A response carrying only `gameComplete: true` and a password, as
the Translation Service is free to produce. -/
def completionOnlyResponse : MistralParsed :=
  { command := none
    narration := none
    language := none
    puzzleProgress := none
    gameComplete := some true
    password := some "TUGRUL_AI" }

/-- All six milestones reached. -/
def allTrueProgress : PuzzleProgress :=
  { foundLantern := true
    litLantern := true
    foundKey := true
    unlockedDoor := true
    reachedTop := true
    litBeacon := true }

/-- C1 (amended): per session, `gameComplete` never transitions
true-to-false and transitions false-to-true at most once; a client
step sets it exactly when the game was already complete or the 2xx
response carries a truthy `gameComplete` — independently of the local
`puzzleProgress` flags; Executor commands never change it; and
`checkGameCompletion` computes the conjunction of the six flags but
assigns nothing, leaving the state unchanged. -/
theorem gameComplete_monotone_once (st : GameState) (ok : Bool) (d : MistralParsed)
    (cmd : String) (session : List (Bool × MistralParsed)) :
    (handleUserInputApply st ok d).gameComplete
        = (st.gameComplete || (ok && d.gameComplete.getD false))
    ∧ (handleEngineCommand st cmd).2.gameComplete = st.gameComplete
    ∧ riseCount st.gameComplete (gcTrace st session) ≤ 1
    ∧ checkGameCompletion st = st :=
  ⟨apply_gameComplete st ok d, (engine_effects st cmd).1, riseCount_le_one session st, rfl⟩

/-- C1 counterexample: applying a 2xx response whose body carries
`gameComplete: true` to the initial state sets `gameComplete` although
none of the six `puzzleProgress` flags is true, so the false-to-true
transition does not happen "only when all six flags are true"; and
`checkGameCompletion` does not set `gameComplete` even when all six
flags are true. -/
theorem gameComplete_without_flags_cex :
    initialGameState.gameComplete = false
    ∧ (handleUserInputApply initialGameState true completionOnlyResponse).gameComplete = true
    ∧ allPuzzlesComplete
        (handleUserInputApply initialGameState true completionOnlyResponse).puzzleProgress = false
    ∧ allPuzzlesComplete allTrueProgress = true
    ∧ (checkGameCompletion
        { initialGameState with puzzleProgress := allTrueProgress }).gameComplete = false := by
  decide

/-- C2 (amended): every Executor command is monotone on the six
`puzzleProgress` flags — a flag that is true is never reset by `look`,
`go`, `take`, `inventory`, `examine`, `use` or any other engine
command.  (The client's application of a Translation Service response
is not monotone: see the counterexample.) -/
theorem puzzleProgress_executor_monotone (st : GameState) (cmd : String) :
    progressLeB st.puzzleProgress (handleEngineCommand st cmd).2.puzzleProgress = true :=
  (engine_effects st cmd).2.2.1

/-- A state whose only progress is `foundLantern`. -/
def foundLanternState : GameState :=
  { initialGameState with
    puzzleProgress := { initialGameState.puzzleProgress with foundLantern := true } }

/-- A response whose `puzzleProgress` object carries
`foundLantern: false`. -/
def resetLanternResponse : MistralParsed :=
  { command := none
    narration := none
    language := none
    puzzleProgress := some
      { foundLantern := some false
        litLantern := none
        foundKey := none
        unlockedDoor := none
        reachedTop := none
        litBeacon := none }
    gameComplete := none
    password := none }

/-- C2 counterexample: the client's merge of a response patch
overwrites `foundLantern` from true back to false, so the flags are
not monotone across the client's application of a Translation Service
response. -/
theorem puzzleProgress_merge_reset_cex :
    foundLanternState.puzzleProgress.foundLantern = true
    ∧ (handleUserInputApply foundLanternState true
        resetLanternResponse).puzzleProgress.foundLantern = false := by
  decide

/-- The nine-command walkthrough of the end-to-end scenario. -/
def walkthroughCommands : List String :=
  ["go north", "take lantern", "use lantern", "go north", "take key",
   "use key", "go inside", "go up", "use lantern"]

/-- C3 (amended): the walkthrough yields exactly the listed
intermediate states and ends with `litBeacon = true`; but the Executor
alone leaves `gameComplete = false` and surfaces no password — those
are set only when a Translation Service response carries them. -/
theorem walkthrough_states :
    (runEngine initialGameState (walkthroughCommands.take 1)).currentRoomId = "beach"
    ∧ (runEngine initialGameState (walkthroughCommands.take 2)).inventory = ["lantern"]
    ∧ (runEngine initialGameState (walkthroughCommands.take 2)).roomItems.beach = []
    ∧ (runEngine initialGameState (walkthroughCommands.take 3)).flags.lanternLit = true
    ∧ (runEngine initialGameState (walkthroughCommands.take 3)).puzzleProgress.litLantern = true
    ∧ (runEngine initialGameState (walkthroughCommands.take 4)).currentRoomId = "lighthouseExterior"
    ∧ (runEngine initialGameState (walkthroughCommands.take 5)).inventory = ["lantern", "smallKey"]
    ∧ (runEngine initialGameState (walkthroughCommands.take 6)).flags.lighthouseDoorUnlocked = true
    ∧ (runEngine initialGameState (walkthroughCommands.take 7)).currentRoomId = "lighthouseInterior"
    ∧ (runEngine initialGameState (walkthroughCommands.take 8)).currentRoomId = "lighthouseTop"
    ∧ (runEngine initialGameState (walkthroughCommands.take 8)).puzzleProgress.reachedTop = true
    ∧ (runEngine initialGameState walkthroughCommands).puzzleProgress.litBeacon = true
    ∧ (runEngine initialGameState walkthroughCommands).gameComplete = false
    ∧ (runEngine initialGameState walkthroughCommands).password = none := by
  decide

/-- C3 counterexample: after the full walkthrough the Executor has set
`litBeacon` but `gameComplete` is still false and no password has been
surfaced, contradicting the claimed ending state. -/
theorem walkthrough_no_completion_cex :
    (runEngine initialGameState walkthroughCommands).puzzleProgress.litBeacon = true
    ∧ (runEngine initialGameState walkthroughCommands).gameComplete = false
    ∧ (runEngine initialGameState walkthroughCommands).password = none := by
  decide

/-- C5: starting from the initial world, after any sequence of engine
commands each of the two item identifiers occurs exactly once across
the five room item sets and the inventory — never in two places, never
nowhere, never duplicated. -/
theorem item_conservation (cmds : List String) :
    totalCount (runEngine initialGameState cmds) "lantern" = 1
    ∧ totalCount (runEngine initialGameState cmds) "smallKey" = 1 := by
  refine ⟨?_, ?_⟩ <;> rw [runEngine_totalCount] <;> decide

/-- C6 (amended): in the top room with the lantern in inventory, the
lantern unlit and the beacon not yet lit, `use lantern` fails and
returns the state unchanged — in particular `litBeacon` stays false.
(When `litBeacon` is already true the call instead succeeds: see the
counterexample.) -/
theorem lantern_unlit_top_fails (st : GameState)
    (hroom : st.currentRoomId = "lighthouseTop")
    (hinv : st.inventory.contains "lantern" = true)
    (hlit : st.flags.lanternLit = false)
    (hbeacon : st.puzzleProgress.litBeacon = false) :
    useItem st "lantern" = (false, st) := by
  have hn : normalizeItemName "lantern" = some "lantern" := by decide
  have hmem : "lantern" ∈ st.inventory := by simpa using hinv
  simp [useItem, hn, hroom, hmem, hlit, hbeacon]

/-- A state at the top of the lighthouse holding the unlit lantern. -/
def unlitTopState : GameState :=
  { initialGameState with
    currentRoomId := "lighthouseTop"
    inventory := ["lantern"] }

/-- Witness for C6 at a concrete state. -/
theorem lantern_unlit_top_fails_witness :
    useItem unlitTopState "lantern" = (false, unlitTopState) :=
  lantern_unlit_top_fails unlitTopState (by decide) (by decide) (by decide) (by decide)

/-- The same situation except that the beacon is already lit. -/
def unlitLanternLitBeaconState : GameState :=
  { initialGameState with
    currentRoomId := "lighthouseTop"
    inventory := ["lantern"]
    puzzleProgress := { initialGameState.puzzleProgress with litBeacon := true } }

/-- C6 counterexample: a state satisfying all of the claim's
hypotheses (player at the top, lantern in inventory, `lanternLit`
false) on which `use lantern` nevertheless succeeds, because the
already-lit-beacon check precedes the lantern-lit check; such a state
is reachable through the client's merge of an untrusted
`puzzleProgress` patch. -/
theorem lantern_top_already_lit_cex :
    unlitLanternLitBeaconState.currentRoomId = "lighthouseTop"
    ∧ unlitLanternLitBeaconState.inventory.contains "lantern" = true
    ∧ unlitLanternLitBeaconState.flags.lanternLit = false
    ∧ (useItem unlitLanternLitBeaconState "lantern").1 = true
    ∧ (useItem unlitLanternLitBeaconState "lantern").2 = unlitLanternLitBeaconState := by
  decide

/-- C7: with the small key in inventory at the lighthouse entrance,
`use key` succeeds, leaves the door unlocked, and a second `use key`
also succeeds and changes nothing — using the key is idempotent. -/
theorem use_key_idempotent (st : GameState)
    (hinv : st.inventory.contains "smallKey" = true)
    (hroom : st.currentRoomId = "lighthouseExterior") :
    (useItem st "key").1 = true
    ∧ (useItem st "key").2.flags.lighthouseDoorUnlocked = true
    ∧ useItem (useItem st "key").2 "key" = (true, (useItem st "key").2) := by
  have hn : normalizeItemName "key" = some "smallKey" := by decide
  have hmem : "smallKey" ∈ st.inventory := by simpa using hinv
  by_cases hU : st.flags.lighthouseDoorUnlocked = true
  · simp [useItem, hn, hroom, hmem, hU]
  · simp [useItem, hn, hroom, hmem, hU]

/-- A state at the lighthouse entrance holding the small key. -/
def keyEntranceState : GameState :=
  { initialGameState with
    currentRoomId := "lighthouseExterior"
    inventory := ["smallKey"] }

/-- Witness for C7 at a concrete state. -/
theorem use_key_idempotent_witness :
    (useItem keyEntranceState "key").1 = true
    ∧ (useItem keyEntranceState "key").2.flags.lighthouseDoorUnlocked = true
    ∧ useItem (useItem keyEntranceState "key").2 "key"
        = (true, (useItem keyEntranceState "key").2) :=
  use_key_idempotent keyEntranceState (by decide) (by decide)

/-- C9: the interpret handler answers 400 when `input` is missing, not
a string or empty; 500 when the upstream credential is absent; 500
when the upstream call throws; and in each of these cases the browser
client, seeing a non-2xx response, leaves the game state untouched. -/
theorem interpret_error_statuses (key : Option String) (upstream : Except Unit MistralParsed)
    (input : JsInput) (st : GameState) (d : MistralParsed) :
    (inputAccepted input = false →
      (interpretHandler key upstream input).status = 400
      ∧ (interpretHandler key upstream input).calledUpstream = false
      ∧ handleUserInputApply st (okOf (interpretHandler key upstream input)) d = st)
    ∧ (inputAccepted input = true → apiKeyPresent key = false →
      (interpretHandler key upstream input).status = 500
      ∧ (interpretHandler key upstream input).calledUpstream = false
      ∧ handleUserInputApply st (okOf (interpretHandler key upstream input)) d = st)
    ∧ (inputAccepted input = true → apiKeyPresent key = true → upstream = .error () →
      (interpretHandler key upstream input).status = 500
      ∧ handleUserInputApply st (okOf (interpretHandler key upstream input)) d = st) := by
  refine ⟨?_, ?_, ?_⟩
  · intro h
    simp [interpretHandler, h, okOf, handleUserInputApply]
  · intro h1 h2
    simp [interpretHandler, h1, h2, okOf, handleUserInputApply]
  · intro h1 h2 h3
    subst h3
    simp [interpretHandler, h1, h2, okOf, handleUserInputApply]

/-- Witness for C9: missing key with valid input answers 500 and the
client state is unchanged. -/
theorem interpret_error_statuses_witness :
    (interpretHandler none (.error ()) (.str "light the beacon")).status = 500
    ∧ (interpretHandler none (.error ()) (.str "light the beacon")).calledUpstream = false
    ∧ handleUserInputApply initialGameState
        (okOf (interpretHandler none (.error ()) (.str "light the beacon")))
        completionOnlyResponse = initialGameState :=
  (interpret_error_statuses none (.error ()) (.str "light the beacon") initialGameState
    completionOnlyResponse).2.1 (by decide) (by decide)

/-- C10: a request whose `input` is the empty string (a string!) is
rejected with 400 before the Translation Service is consulted: the
`!input` truthiness test rejects empty strings, and the response does
not depend on the upstream outcome. -/
theorem interpret_empty_input_400 (key : Option String) (u1 u2 : Except Unit MistralParsed) :
    (interpretHandler key u1 (.str "")).status = 400
    ∧ (interpretHandler key u1 (.str "")).calledUpstream = false
    ∧ interpretHandler key u1 (.str "") = interpretHandler key u2 (.str "") :=
  ⟨rfl, rfl, rfl⟩

/-- C4: `go <direction>` (with the `in` alias normalized as the engine
does) succeeds iff the current room has that exit and the destination
is not the locked interior room unless the unlock flag is set; on
success it relocates to the destination and sets `reachedTop` when the
destination is the top room; on failure the current room, the
inventory and the flags are unchanged. -/
theorem move_go_spec (st : GameState) (d : String) :
    ((move st d).1 = true ↔
      ∃ dest,
        roomExit st.currentRoomId (if d == "inside" || d == "in" then "inside" else d) = some dest
        ∧ (dest = "lighthouseInterior" → st.flags.lighthouseDoorUnlocked = true))
    ∧ (∀ dest,
        roomExit st.currentRoomId (if d == "inside" || d == "in" then "inside" else d)
            = some dest →
        (move st d).1 = true →
        (move st d).2.currentRoomId = dest
          ∧ (dest = "lighthouseTop" → (move st d).2.puzzleProgress.reachedTop = true))
    ∧ ((move st d).1 = false →
        (move st d).2.currentRoomId = st.currentRoomId
          ∧ (move st d).2.inventory = st.inventory
          ∧ (move st d).2.flags = st.flags) := by
  unfold move
  cases h : roomExit st.currentRoomId (if d == "inside" || d == "in" then "inside" else d) with
  | none =>
    dsimp only
    refine ⟨?_, ?_, ?_⟩
    · constructor
      · intro hfalse
        exact Bool.noConfusion hfalse
      · rintro ⟨dest0, hd0, -⟩
        exact Option.noConfusion hd0
    · intro dest0 hd0
      exact Option.noConfusion hd0
    · intro _
      exact ⟨rfl, rfl, rfl⟩
  | some dest =>
    dsimp only
    have hval : roomExists dest = true := roomExit_valid _ _ _ h
    by_cases hlock : (dest == "lighthouseInterior" && !st.flags.lighthouseDoorUnlocked) = true
    · rw [if_pos hlock]
      have hIeq : dest = "lighthouseInterior" := by
        simpa using ((Bool.and_eq_true _ _).mp hlock).1
      have hU0 : st.flags.lighthouseDoorUnlocked = false := by
        simpa using ((Bool.and_eq_true _ _).mp hlock).2
      refine ⟨?_, ?_, ?_⟩
      · constructor
        · intro hfalse
          exact Bool.noConfusion hfalse
        · rintro ⟨dest0, hd0, himp⟩
          injection hd0 with e
          subst e
          exact absurd (himp hIeq) (by simp [hU0])
      · intro dest0 hd0 hsucc
        exact Bool.noConfusion hsucc
      · intro _
        exact ⟨rfl, rfl, rfl⟩
    · rw [if_neg hlock]
      have hfree : dest = "lighthouseInterior" → st.flags.lighthouseDoorUnlocked = true := by
        intro he
        subst he
        simpa using hlock
      by_cases hT : (dest == "lighthouseTop") = true
      · rw [if_pos hT]
        refine ⟨?_, ?_, ?_⟩
        · constructor
          · intro _
            exact ⟨dest, rfl, hfree⟩
          · intro _
            rfl
        · intro dest0 hd0 _
          injection hd0 with e
          subst e
          refine ⟨setLocation_currentRoomId _ _ hval, fun _ => ?_⟩
          have hp := (setLocation_effects
            { st with puzzleProgress := { st.puzzleProgress with reachedTop := true } }
            dest).2.2.2.1
          rw [hp]
        · intro hfail
          exact Bool.noConfusion hfail
      · rw [if_neg hT]
        refine ⟨?_, ?_, ?_⟩
        · constructor
          · intro _
            exact ⟨dest, rfl, hfree⟩
          · intro _
            rfl
        · intro dest0 hd0 _
          injection hd0 with e
          subst e
          refine ⟨setLocation_currentRoomId _ _ hval, fun hc => ?_⟩
          exact absurd hc (by simpa using hT)
        · intro hfail
          exact Bool.noConfusion hfail

/-- Witness for C4: from the pier, `go north` succeeds and relocates
to the beach; `go east` fails and leaves the room, the inventory and
the flags unchanged. -/
theorem move_go_spec_witness :
    (move initialGameState "north").1 = true
    ∧ (move initialGameState "north").2.currentRoomId = "beach"
    ∧ (move initialGameState "east").2.currentRoomId = initialGameState.currentRoomId
    ∧ (move initialGameState "east").2.inventory = initialGameState.inventory
    ∧ (move initialGameState "east").2.flags = initialGameState.flags := by
  have hsucc : (move initialGameState "north").1 = true :=
    (move_go_spec initialGameState "north").1.mpr ⟨"beach", by decide, by decide⟩
  have hgo := (move_go_spec initialGameState "north").2.1 "beach" (by decide) hsucc
  have hfail := (move_go_spec initialGameState "east").2.2 (by decide)
  exact ⟨hsucc, hgo.1, hfail.1, hfail.2.1, hfail.2.2⟩

theorem fallback_defaults (trimmed : String) :
    (applyDefaults (fallbackParsed trimmed)).command = some "look"
    ∧ (applyDefaults (fallbackParsed trimmed)).narration
        = some (if trimmed == "" then "You pause for a moment, unsure of your next move."
                else trimmed) := by
  unfold applyDefaults fallbackParsed orDefaultStr
  by_cases ht : (trimmed == "") = true
  · simp [ht]
  · have ht0 : (trimmed == "") = false := by
      revert ht; cases (trimmed == "") <;> simp
    simp [ht0]

/-- C8 (amended): whenever every JSON parse attempt of the recovery
pipeline fails — on the candidate obtained by fence and brace
extraction, and on the fence-stripped retry — the parse step returns
command `look`; the narration is the raw trimmed reply text when that
is non-empty and the fixed default "You pause for a moment, unsure of
your next move." only when the reply is empty.  The pipeline is a
total function: every parse failure is caught, so no exception
propagates to the caller. -/
theorem parse_fallback_defaults (jp : String → Option MistralParsed) (content : String)
    (h1 : jp (extractCandidate (sTrim content)) = none)
    (h2 : jp (sTrim (stripFenceMarks (extractCandidate (sTrim content)))) = none) :
    (callMistralParse jp (some content)).command = some "look"
    ∧ (callMistralParse jp (some content)).narration
        = some (if sTrim content == "" then "You pause for a moment, unsure of your next move."
                else sTrim content) := by
  unfold callMistralParse parseWithFallback
  dsimp only [Option.getD_some]
  rw [h1]
  by_cases hf : containsTicks (extractCandidate (sTrim content)) = true
  · rw [if_pos hf, h2]
    exact fallback_defaults (sTrim content)
  · rw [if_neg hf]
    exact fallback_defaults (sTrim content)

/-- A parse oracle that fails on every string: the behaviour of
`JSON.parse` on the non-JSON replies considered below. -/
def jpNone : String → Option MistralParsed := fun _ => none

/-- Witness for C8 at a concrete non-JSON reply. -/
theorem parse_fallback_defaults_witness :
    (callMistralParse jpNone (some "hello there")).command = some "look"
    ∧ (callMistralParse jpNone (some "hello there")).narration = some "hello there" := by
  refine ⟨(parse_fallback_defaults jpNone "hello there" rfl rfl).1, ?_⟩
  have h2 := (parse_fallback_defaults jpNone "hello there" rfl rfl).2
  have h3 : (if sTrim "hello there" == "" then
      "You pause for a moment, unsure of your next move."
      else sTrim "hello there") = "hello there" := by decide
  rw [h3] at h2
  exact h2

/-- C8 counterexample: on the prose reply "The fog thickens." (no JSON
object, no fence) the parse step does return command `look`, but the
narration is the prose itself — not a generic narration string: it
differs from both fixed default narration strings of the code. -/
theorem parse_fallback_narration_cex :
    (callMistralParse jpNone (some "The fog thickens.")).command = some "look"
    ∧ (callMistralParse jpNone (some "The fog thickens.")).narration = some "The fog thickens."
    ∧ "The fog thickens." ≠ "You pause for a moment, unsure of your next move."
    ∧ "The fog thickens." ≠ "You take a moment to look around." := by
  decide

end TugrulLighthouse
